import Mathlib

/-!
Shallow embedding of `src/NeutrinoFlux.py` (relic neutrino absorption
spectroscopy, after Eberle 2004).  Machine floats are modelled by real
numbers, `math.exp` by `Real.exp`, `math.sqrt` by `Real.sqrt`, the float
power `**` with a real exponent by `Real.rpow` (integer-literal exponents
stay monoid powers, as in Python), and `scipy.integrate.quad` over
`[z_min, z_max]` by the interval integral.  A Python `assert` that can
fire is modelled by an `Except` return value, named after the error
taxonomy of the design document.
-/

open MeasureTheory Set

/-- Error taxonomy used by the fallible operations of the embedding. -/
inductive Err where
  | InvalidParameterError
  | DomainError
  | IntegrationError
deriving DecidableEq

/-- Configuration held by the `NeutrinoFlux` object; every field default is
the value assigned in `NeutrinoFlux.__init__`. -/
structure NeutrinoFlux where
  z_min : ℝ := 0
  z_max : ℝ := 20
  alpha : ℝ := 1
  n : ℝ := 1
  m_n : ℝ := 1
  eta0 : ℝ := 1e-5
  j : ℝ := 3e6
  Z_decay : Bool := true
  FluxEalpha : Bool := true
  Emin : ℝ := 0
  Emax : ℝ := 5e22

/-- The configuration constructed by `NeutrinoFlux.__init__`. -/
def NeutrinoFlux.init : NeutrinoFlux := {}

namespace NeutrinoFlux

/-- Z boson mass in eV, the local constant `m_z` of `E_resonance`. -/
noncomputable def m_z : ℝ := 91.2e9

/-- Resonance energy `self.Eres` derived from the neutrino mass
(`E_resonance`, eq 1); `__init__` computes it whenever `m_n > 0`. -/
noncomputable def Eres (c : NeutrinoFlux) : ℝ := m_z ^ 2 / (2 * c.m_n)

/-- The method `E_resonance` as a fallible operation: the method asserts `m_n > 0`
("Neutrino massless") before producing `m_z**2 / (2 * m_n)`. -/
noncomputable def E_resonance (m_n : ℝ) : Except Err ℝ :=
  if 0 < m_n then .ok (m_z ^ 2 / (2 * m_n)) else .error .InvalidParameterError

/-- The method `Hubble`: the Hubble parameter at redshift `z` (eq 8), with
`H0 = 100 * h`. -/
noncomputable def Hubble (z h Om Ol Ok : ℝ) : ℝ :=
  Real.sqrt ((100 * h) ^ 2 * (Om * (1 + z) ^ 3 + Ok * (1 + z) ^ 2 + Ol))

/-- Value computed by `Ebe04_survival_probability_P` after its
flat-universe assert has passed: `1` outside the resonance window, and
`exp(-ann_prob * x^3 / sqrt(Om*x^3 + Ok*x^2 + Ol))` with `x = Eres/e`
inside it (eq 15, with `ann_prob = 0.678/h * 0.03` from eq 16). -/
noncomputable def survivalP (Eres e z h Om Ol Ok : ℝ) : ℝ :=
  if e < Eres / (1 + z) ∨ Eres < e then 1
  else Real.exp (-(0.678 / h * 0.03 *
    ((Eres / e) ^ 3 /
      Real.sqrt (Om * (Eres / e) ^ 3 + Ok * (Eres / e) ^ 2 + Ol))))

/-- The method `Ebe04_survival_probability_P`: asserts a flat universe
(`Om + Ol + Ok == 1`, "No Flat Universe!"), then returns the survival
probability. -/
noncomputable def Ebe04_survival_probability_P (c : NeutrinoFlux)
    (e z h Om Ol Ok : ℝ) : Except Err ℝ :=
  if Om + Ol + Ok = 1 then .ok (survivalP c.Eres e z h Om Ol Ok)
  else .error .InvalidParameterError

/-- The method `Ebe04_source_emissivity_L_z`: the z-dependent part of the source
emissivity, `(1+z)**(n - alpha)` strictly inside `(z_min, z_max)` and `0`
otherwise (eq 24 / 27-28). -/
noncomputable def Ebe04_source_emissivity_L_z (c : NeutrinoFlux) (z : ℝ) : ℝ :=
  if c.z_min < z then
    (if z < c.z_max then (1 + z) ^ (c.n - c.alpha) else 0)
  else 0

/-- The method `Ebe04_source_emissivity_L_no_z`: the z-independent part of the source
emissivity, `eta0 * j * e**(-alpha)` (eq 24 / 27-28). -/
noncomputable def Ebe04_source_emissivity_L_no_z (c : NeutrinoFlux) (e : ℝ) : ℝ :=
  c.eta0 * c.j * e ^ (-c.alpha)

/-- The method `Ebe04_neutrino_flux_earth_F`: the flux per neutrino flavor at energy
`e`, integrating survival probability (when `absorption` holds) times
source emissivity over Hubble parameter across redshifts, then scaling by
`1/(4*pi)`, `1/3` and the z-independent emissivity.  The cosmological
arguments of `Hubble` and of the survival probability are the Python
defaults `h=0.678, Om=0.308, Ol=0.692, Ok=0`, for which the
flat-universe assert provably passes. -/
noncomputable def Ebe04_neutrino_flux_earth_F (c : NeutrinoFlux) (e : ℝ)
    (absorption : Bool) : ℝ :=
  let f1_to_integrate : ℝ → ℝ := fun z =>
    if absorption then
      1 / Hubble z 0.678 0.308 0.692 0 *
        survivalP c.Eres e z 0.678 0.308 0.692 0 *
        c.Ebe04_source_emissivity_L_z z
    else
      1 / Hubble z 0.678 0.308 0.692 0 * c.Ebe04_source_emissivity_L_z z
  let integrant1 : ℝ := ∫ z in c.z_min..c.z_max, f1_to_integrate z
  1 / (4 * Real.pi) * integrant1 * (1 / 3) * c.Ebe04_source_emissivity_L_no_z e

/-- The method `Ebe05_neutrino_flux_earth_F`: primary flux, plus — when absorption is
on and `Z_decay` is set — the secondary flux from Z-boson decay,
`0.4 * (F(2e, no absorption) - F(2e, absorption))`. -/
noncomputable def Ebe05_neutrino_flux_earth_F (c : NeutrinoFlux) (e : ℝ)
    (absorption : Bool) : ℝ :=
  let primary_flux := c.Ebe04_neutrino_flux_earth_F e absorption
  if absorption = false then primary_flux
  else if c.Z_decay = false then primary_flux
  else
    let decay_frac_to_nu : ℝ := 0.4
    let secondary_flux := c.Ebe04_neutrino_flux_earth_F (2 * e) false -
      c.Ebe04_neutrino_flux_earth_F (2 * e) true
    primary_flux + secondary_flux * decay_frac_to_nu

end NeutrinoFlux

namespace NeutrinoFlux

/-- The Hubble parameter is a real square root, hence never negative. -/
lemma Hubble_nonneg (z h Om Ol Ok : ℝ) : 0 ≤ Hubble z h Om Ol Ok :=
  Real.sqrt_nonneg _

/-- The survival probability is strictly positive: both branches return a
positive real (`1`, or a value of the exponential function). -/
lemma survivalP_pos (Eres e z h Om Ol Ok : ℝ) :
    0 < survivalP Eres e z h Om Ol Ok := by
  unfold survivalP
  split_ifs
  · norm_num
  · exact Real.exp_pos _

/-- Inside the resonance window the exponent is nonpositive, so the
survival probability never exceeds `1`. -/
lemma survivalP_le_one (Eres e z h Om Ol Ok : ℝ) (he : 0 < e) (hh : 0 < h) :
    survivalP Eres e z h Om Ol Ok ≤ 1 := by
  unfold survivalP
  split_ifs with hcond
  · exact le_refl 1
  · push_neg at hcond
    rw [Real.exp_le_one_iff, neg_nonpos]
    have hx : (0 : ℝ) ≤ Eres / e := div_nonneg (le_trans he.le hcond.2) he.le
    exact mul_nonneg (mul_nonneg (div_nonneg (by norm_num) hh.le) (by norm_num))
      (div_nonneg (pow_nonneg hx 3) (Real.sqrt_nonneg _))

/-- The z-dependent emissivity factor is nonnegative whenever the
configured `z_min` is nonnegative. -/
lemma L_z_nonneg (c : NeutrinoFlux) (hc : 0 ≤ c.z_min) (z : ℝ) :
    0 ≤ c.Ebe04_source_emissivity_L_z z := by
  unfold Ebe04_source_emissivity_L_z
  split_ifs with h1 h2
  · exact Real.rpow_nonneg (by linarith) _
  · exact le_refl 0
  · exact le_refl 0

/-- With the constructed configuration (`n = alpha = 1`) the z-dependent
emissivity factor is at most `1`. -/
lemma L_z_init_le_one (z : ℝ) : init.Ebe04_source_emissivity_L_z z ≤ 1 := by
  show (if (0 : ℝ) < z then (if z < 20 then (1 + z) ^ ((1 : ℝ) - 1) else 0) else 0) ≤ 1
  split_ifs <;> norm_num [Real.rpow_zero]

/-- The resonance energy of the constructed configuration is positive. -/
lemma Eres_init_pos : 0 < init.Eres := by
  show (0 : ℝ) < m_z ^ 2 / (2 * 1)
  norm_num [m_z]

/-- A configuration whose neutrino mass makes the resonance energy equal
to `1`, used to evaluate claims at the window boundaries. -/
lemma Eres_mk_eq_one : Eres { m_n := m_z ^ 2 / 2 } = 1 := by
  show m_z ^ 2 / (2 * (m_z ^ 2 / 2)) = 1
  norm_num [m_z]

end NeutrinoFlux

/-- C7: `emissivityRedshiftFactor` (the method
`Ebe04_source_emissivity_L_z`) returns `0` when `z ≤ z_min` or
`z ≥ z_max` — in particular exactly `0` at both endpoints — and returns
`(1+z)^(n-α)` when `z_min < z < z_max`. -/
theorem source_emissivity_L_z_cases (c : NeutrinoFlux) (z : ℝ) :
    (z ≤ c.z_min ∨ c.z_max ≤ z → c.Ebe04_source_emissivity_L_z z = 0) ∧
    (c.z_min < z → z < c.z_max →
      c.Ebe04_source_emissivity_L_z z = (1 + z) ^ (c.n - c.alpha)) := by
  constructor
  · rintro (h | h)
    · simp [NeutrinoFlux.Ebe04_source_emissivity_L_z, not_lt.mpr h]
    · by_cases hz : c.z_min < z
      · simp [NeutrinoFlux.Ebe04_source_emissivity_L_z, hz, not_lt.mpr h]
      · simp [NeutrinoFlux.Ebe04_source_emissivity_L_z, hz]
  · intro h1 h2
    simp [NeutrinoFlux.Ebe04_source_emissivity_L_z, h1, h2]

/-- Witness for C7: with the constructed configuration the factor is `0`
at `z = 25` (beyond `z_max = 20`) and `(1+1)^(1-1)` at `z = 1`. -/
theorem source_emissivity_L_z_cases_witness :
    NeutrinoFlux.init.Ebe04_source_emissivity_L_z 25 = 0 ∧
    NeutrinoFlux.init.Ebe04_source_emissivity_L_z 1 =
      ((1 : ℝ) + 1) ^ ((1 : ℝ) - 1) := by
  constructor
  · exact (source_emissivity_L_z_cases NeutrinoFlux.init 25).1
      (Or.inr (by norm_num [NeutrinoFlux.init]))
  · exact (source_emissivity_L_z_cases NeutrinoFlux.init 1).2
      (by norm_num [NeutrinoFlux.init]) (by norm_num [NeutrinoFlux.init])

/-- C8: `E_resonance` returns `Eres = m_z^2 / (2*m_n)` with the fixed
constant `m_z = 91.2e9` eV for every `m_n > 0`, and fails with
`InvalidParameterError` for every `m_n ≤ 0`. -/
theorem E_resonance_spec (m_n : ℝ) :
    (0 < m_n →
      NeutrinoFlux.E_resonance m_n = .ok ((91.2e9 : ℝ) ^ 2 / (2 * m_n))) ∧
    (m_n ≤ 0 →
      NeutrinoFlux.E_resonance m_n = .error .InvalidParameterError) := by
  constructor
  · intro h
    simp [NeutrinoFlux.E_resonance, NeutrinoFlux.m_z, h]
  · intro h
    simp [NeutrinoFlux.E_resonance, not_lt.mpr h]

/-- Witness for C8: the resonance energy at `m_n = 1` and the failure at
`m_n = -1`. -/
theorem E_resonance_spec_witness :
    NeutrinoFlux.E_resonance 1 = .ok ((91.2e9 : ℝ) ^ 2 / (2 * 1)) ∧
    NeutrinoFlux.E_resonance (-1) = .error .InvalidParameterError :=
  ⟨(E_resonance_spec 1).1 (by norm_num), (E_resonance_spec (-1)).2 (by norm_num)⟩

/-- Counterexample to C9: the code performs no domain check, so at
`e = -2` (with the constructed parameters `eta0 = 1e-5`, `j = 3e6`,
`alpha = 1`) `Ebe04_source_emissivity_L_no_z` returns the ordinary value
`1e-5 * 3e6 * (-2)⁻¹ = -15` instead of failing with `DomainError`. -/
theorem source_emissivity_L_no_z_counterexample :
    NeutrinoFlux.init.Ebe04_source_emissivity_L_no_z (-2) = -15 := by
  show (1e-5 : ℝ) * 3e6 * (-2 : ℝ) ^ (-(1 : ℝ)) = -15
  rw [show (-(1 : ℝ)) = (-1 : ℝ) from rfl, Real.rpow_neg_one]
  norm_num

/-- C9 (amended): `Ebe04_source_emissivity_L_no_z` returns
`eta0 * j * e^(-alpha)` for every `e > 0`, and — having no domain check —
returns the value of the same expression for `e ≤ 0` as well, rather than
failing with `DomainError`. -/
theorem source_emissivity_L_no_z_total (c : NeutrinoFlux) (e : ℝ) :
    (0 < e → c.Ebe04_source_emissivity_L_no_z e = c.eta0 * c.j * e ^ (-c.alpha)) ∧
    (e ≤ 0 → c.Ebe04_source_emissivity_L_no_z e = c.eta0 * c.j * e ^ (-c.alpha)) :=
  ⟨fun _ => rfl, fun _ => rfl⟩

/-- Witness for C9: the amended claim evaluated at `e = 1` and `e = -2`
with the constructed configuration. -/
theorem source_emissivity_L_no_z_total_witness :
    NeutrinoFlux.init.Ebe04_source_emissivity_L_no_z 1 =
      NeutrinoFlux.init.eta0 * NeutrinoFlux.init.j * (1 : ℝ) ^ (-NeutrinoFlux.init.alpha) ∧
    NeutrinoFlux.init.Ebe04_source_emissivity_L_no_z (-2) =
      NeutrinoFlux.init.eta0 * NeutrinoFlux.init.j * (-2 : ℝ) ^ (-NeutrinoFlux.init.alpha) :=
  ⟨(source_emissivity_L_no_z_total NeutrinoFlux.init 1).1 (by norm_num),
   (source_emissivity_L_no_z_total NeutrinoFlux.init (-2)).2 (by norm_num)⟩

/-- C6: `Ebe04_survival_probability_P` fails with `InvalidParameterError`
exactly when the cosmological parameters do not satisfy
`Om + Ol + Ok = 1` (a strict equality check); when the equality holds it
returns normally, with the survival-probability value. -/
theorem survival_probability_error_iff (c : NeutrinoFlux) (e z h Om Ol Ok : ℝ) :
    (c.Ebe04_survival_probability_P e z h Om Ol Ok =
        .error .InvalidParameterError ↔ Om + Ol + Ok ≠ 1) ∧
    (Om + Ol + Ok = 1 →
      c.Ebe04_survival_probability_P e z h Om Ol Ok =
        .ok (NeutrinoFlux.survivalP c.Eres e z h Om Ol Ok)) := by
  constructor
  · by_cases hflat : Om + Ol + Ok = 1 <;>
      simp [NeutrinoFlux.Ebe04_survival_probability_P, hflat]
  · intro hflat
    simp [NeutrinoFlux.Ebe04_survival_probability_P, hflat]

/-- Witness for C6: with the non-flat triple `(1, 1, 1)` the operation
fails, and with the canonical flat triple `(0.308, 0.692, 0)` it returns
the survival-probability value. -/
theorem survival_probability_error_iff_witness :
    NeutrinoFlux.init.Ebe04_survival_probability_P 1 1 0.678 1 1 1 =
      .error .InvalidParameterError ∧
    NeutrinoFlux.init.Ebe04_survival_probability_P 1 1 0.678 0.308 0.692 0 =
      .ok (NeutrinoFlux.survivalP NeutrinoFlux.init.Eres 1 1 0.678 0.308 0.692 0) :=
  ⟨(survival_probability_error_iff NeutrinoFlux.init 1 1 0.678 1 1 1).1.mpr
      (by norm_num),
   (survival_probability_error_iff NeutrinoFlux.init 1 1 0.678 0.308 0.692 0).2
      (by norm_num)⟩

/-- C2: with a flat cosmology, `Ebe04_survival_probability_P` returns
exactly `1` when `e < Eres/(1+z)` or `e > Eres`, and otherwise returns
`exp(-ann * x^3 / sqrt(Om*x^3 + Ok*x^2 + Ol))` with `x = Eres/e` and
`ann = (0.678/h) * 0.03`. -/
theorem survival_probability_branches (c : NeutrinoFlux) (e z h Om Ol Ok : ℝ)
    (hflat : Om + Ol + Ok = 1) :
    (e < c.Eres / (1 + z) ∨ c.Eres < e →
      c.Ebe04_survival_probability_P e z h Om Ol Ok = .ok 1) ∧
    (¬(e < c.Eres / (1 + z) ∨ c.Eres < e) →
      c.Ebe04_survival_probability_P e z h Om Ol Ok =
        .ok (Real.exp (-(0.678 / h * 0.03 *
          ((c.Eres / e) ^ 3 /
            Real.sqrt (Om * (c.Eres / e) ^ 3 + Ok * (c.Eres / e) ^ 2 + Ol)))))) := by
  constructor <;> intro hcond <;>
    simp [NeutrinoFlux.Ebe04_survival_probability_P, NeutrinoFlux.survivalP,
      hflat, hcond]

/-- Witness for C2, with a configuration whose resonance energy is `1` and
the flat triple `(1, 0, 0)`: at `e = 2 > Eres` the result is `1`, and at
`e = 1/2` (inside the window for `z = 1`) it is the exponential value. -/
theorem survival_probability_branches_witness :
    NeutrinoFlux.Ebe04_survival_probability_P { m_n := NeutrinoFlux.m_z ^ 2 / 2 }
        2 1 1 1 0 0 = .ok 1 ∧
    NeutrinoFlux.Ebe04_survival_probability_P { m_n := NeutrinoFlux.m_z ^ 2 / 2 }
        (1 / 2) 1 1 1 0 0 =
      .ok (Real.exp (-(0.678 / 1 * 0.03 *
        ((NeutrinoFlux.Eres { m_n := NeutrinoFlux.m_z ^ 2 / 2 } / (1 / 2)) ^ 3 /
          Real.sqrt
            (1 * (NeutrinoFlux.Eres { m_n := NeutrinoFlux.m_z ^ 2 / 2 } / (1 / 2)) ^ 3 +
              0 * (NeutrinoFlux.Eres { m_n := NeutrinoFlux.m_z ^ 2 / 2 } / (1 / 2)) ^ 2 +
              0))))) := by
  constructor
  · exact (survival_probability_branches { m_n := NeutrinoFlux.m_z ^ 2 / 2 }
      2 1 1 1 0 0 (by norm_num)).1
      (Or.inr (by rw [NeutrinoFlux.Eres_mk_eq_one]; norm_num))
  · exact (survival_probability_branches { m_n := NeutrinoFlux.m_z ^ 2 / 2 }
      (1 / 2) 1 1 1 0 0 (by norm_num)).2
      (by rw [NeutrinoFlux.Eres_mk_eq_one]; norm_num)

/-- C10 (implicit): for `e > 0`, `z ≥ 0`, a flat cosmology and `h > 0`,
the survival probability lies in `(0, 1]`, and the fallible operation
returns it normally. -/
theorem survival_probability_mem_Ioc (c : NeutrinoFlux) (e z h Om Ol Ok : ℝ)
    (he : 0 < e) (hz : 0 ≤ z) (hflat : Om + Ol + Ok = 1) (hh : 0 < h) :
    0 < NeutrinoFlux.survivalP c.Eres e z h Om Ol Ok ∧
    NeutrinoFlux.survivalP c.Eres e z h Om Ol Ok ≤ 1 ∧
    c.Ebe04_survival_probability_P e z h Om Ol Ok =
      .ok (NeutrinoFlux.survivalP c.Eres e z h Om Ol Ok) :=
  ⟨NeutrinoFlux.survivalP_pos _ _ _ _ _ _ _,
   NeutrinoFlux.survivalP_le_one _ _ _ _ _ _ _ he hh,
   by simp [NeutrinoFlux.Ebe04_survival_probability_P, hflat]⟩

/-- Witness for C10 at the constructed configuration, `e = 1`, `z = 0` and
the canonical flat triple. -/
theorem survival_probability_mem_Ioc_witness :
    0 < NeutrinoFlux.survivalP NeutrinoFlux.init.Eres 1 0 0.678 0.308 0.692 0 ∧
    NeutrinoFlux.survivalP NeutrinoFlux.init.Eres 1 0 0.678 0.308 0.692 0 ≤ 1 ∧
    NeutrinoFlux.init.Ebe04_survival_probability_P 1 0 0.678 0.308 0.692 0 =
      .ok (NeutrinoFlux.survivalP NeutrinoFlux.init.Eres 1 0 0.678 0.308 0.692 0) :=
  survival_probability_mem_Ioc NeutrinoFlux.init 1 0 0.678 0.308 0.692 0
    (by norm_num) (by norm_num) (by norm_num) (by norm_num)

/-- C1: for every `e > 0` and either absorption flag, the primary flux is
`1/(4π) · 1/3 · emissivityEnergyFactor(e) · I`, where `I` integrates over
`[z_min, z_max]` the integrand `(1/Hubble) · survivalP · L_z` with
absorption and `(1/Hubble) · L_z` without. -/
theorem flux_formula (c : NeutrinoFlux) (e : ℝ) (absorption : Bool)
    (he : 0 < e) :
    c.Ebe04_neutrino_flux_earth_F e absorption =
      1 / (4 * Real.pi) * (1 / 3) * c.Ebe04_source_emissivity_L_no_z e *
        ∫ z in c.z_min..c.z_max,
          (if absorption then
            1 / NeutrinoFlux.Hubble z 0.678 0.308 0.692 0 *
              NeutrinoFlux.survivalP c.Eres e z 0.678 0.308 0.692 0 *
              c.Ebe04_source_emissivity_L_z z
          else
            1 / NeutrinoFlux.Hubble z 0.678 0.308 0.692 0 *
              c.Ebe04_source_emissivity_L_z z) := by
  simp only [NeutrinoFlux.Ebe04_neutrino_flux_earth_F]
  ring

/-- Witness for C1: the formula at the constructed configuration, `e = 1`,
with absorption. -/
theorem flux_formula_witness :
    NeutrinoFlux.init.Ebe04_neutrino_flux_earth_F 1 true =
      1 / (4 * Real.pi) * (1 / 3) *
          NeutrinoFlux.init.Ebe04_source_emissivity_L_no_z 1 *
        ∫ z in NeutrinoFlux.init.z_min..NeutrinoFlux.init.z_max,
          (if true then
            1 / NeutrinoFlux.Hubble z 0.678 0.308 0.692 0 *
              NeutrinoFlux.survivalP NeutrinoFlux.init.Eres 1 z 0.678 0.308 0.692 0 *
              NeutrinoFlux.init.Ebe04_source_emissivity_L_z z
          else
            1 / NeutrinoFlux.Hubble z 0.678 0.308 0.692 0 *
              NeutrinoFlux.init.Ebe04_source_emissivity_L_z z) :=
  flux_formula NeutrinoFlux.init 1 true (by norm_num)

/-- C3: the Ebe05 total flux equals the primary flux when absorption is
off (for either decay flag), equals it when `Z_decay` is off, and adds
`0.4 · (F(2e, no absorption) - F(2e, absorption))` when both are on. -/
theorem total_flux_secondary (c : NeutrinoFlux) (e : ℝ) :
    (c.Ebe05_neutrino_flux_earth_F e false =
      c.Ebe04_neutrino_flux_earth_F e false) ∧
    (c.Z_decay = false →
      c.Ebe05_neutrino_flux_earth_F e true =
        c.Ebe04_neutrino_flux_earth_F e true) ∧
    (c.Z_decay = true →
      c.Ebe05_neutrino_flux_earth_F e true =
        c.Ebe04_neutrino_flux_earth_F e true +
          0.4 * (c.Ebe04_neutrino_flux_earth_F (2 * e) false -
            c.Ebe04_neutrino_flux_earth_F (2 * e) true)) := by
  refine ⟨by simp [NeutrinoFlux.Ebe05_neutrino_flux_earth_F],
    fun hd => ?_, fun hd => ?_⟩
  · simp [NeutrinoFlux.Ebe05_neutrino_flux_earth_F, hd]
  · simp [NeutrinoFlux.Ebe05_neutrino_flux_earth_F, hd]
    ring

/-- Witness for C3: all three cases at `e = 1`, using the constructed
configuration (`Z_decay = true`) and a copy with `Z_decay = false`. -/
theorem total_flux_secondary_witness :
    (NeutrinoFlux.init.Ebe05_neutrino_flux_earth_F 1 false =
      NeutrinoFlux.init.Ebe04_neutrino_flux_earth_F 1 false) ∧
    (NeutrinoFlux.Ebe05_neutrino_flux_earth_F { Z_decay := false } 1 true =
      NeutrinoFlux.Ebe04_neutrino_flux_earth_F { Z_decay := false } 1 true) ∧
    (NeutrinoFlux.init.Ebe05_neutrino_flux_earth_F 1 true =
      NeutrinoFlux.init.Ebe04_neutrino_flux_earth_F 1 true +
        0.4 * (NeutrinoFlux.init.Ebe04_neutrino_flux_earth_F (2 * 1) false -
          NeutrinoFlux.init.Ebe04_neutrino_flux_earth_F (2 * 1) true)) :=
  ⟨(total_flux_secondary NeutrinoFlux.init 1).1,
   (total_flux_secondary { Z_decay := false } 1).2.1 rfl,
   (total_flux_secondary NeutrinoFlux.init 1).2.2 rfl⟩

/-- Counterexample to C4: at exactly `e = Eres` (taking `Eres = 1`,
`z = 1 > 0`, the canonical flat triple and `h = 0.678`) the branch
condition `e < Eres/(1+z) or e > Eres` is false, so the interior formula
applies and yields `exp(-0.03) ≠ 1`: the survival probability does not
evaluate to `1` at the window boundary. -/
theorem survival_probability_boundary_counterexample :
    NeutrinoFlux.survivalP 1 1 1 0.678 0.308 0.692 0 ≠ 1 := by
  unfold NeutrinoFlux.survivalP
  rw [if_neg (by norm_num)]
  rw [Ne, Real.exp_eq_one_iff]
  rw [show (0.308 * ((1:ℝ)/1) ^ 3 + 0 * ((1:ℝ)/1) ^ 2 + 0.692) = 1 by norm_num,
    Real.sqrt_one]
  norm_num

/-- C4 (amended): at both window boundaries the branch condition is false
and the interior formula applies, so the function is discontinuous there:
at `e = Eres` the value is `exp(-(0.678/h)*0.03) ≠ 1`, at
`e = Eres/(1+z)` it is the interior formula at `x = 1+z`, while just
outside the window (e.g. at `e = 2*Eres`) the value jumps to `1`. -/
theorem survival_probability_boundary (c : NeutrinoFlux) (z h Om Ol Ok : ℝ)
    (hflat : Om + Ol + Ok = 1) (hz : 0 < z) (hE : 0 < c.Eres) (hh : 0 < h) :
    NeutrinoFlux.survivalP c.Eres c.Eres z h Om Ol Ok =
      Real.exp (-(0.678 / h * 0.03)) ∧
    NeutrinoFlux.survivalP c.Eres c.Eres z h Om Ol Ok ≠ 1 ∧
    NeutrinoFlux.survivalP c.Eres (c.Eres / (1 + z)) z h Om Ol Ok =
      Real.exp (-(0.678 / h * 0.03 *
        ((1 + z) ^ 3 /
          Real.sqrt (Om * (1 + z) ^ 3 + Ok * (1 + z) ^ 2 + Ol)))) ∧
    NeutrinoFlux.survivalP c.Eres (2 * c.Eres) z h Om Ol Ok = 1 := by
  have h1z : (1 : ℝ) < 1 + z := by linarith
  have hdiv : c.Eres / (1 + z) < c.Eres := div_lt_self hE h1z
  have hEne : c.Eres ≠ 0 := ne_of_gt hE
  have hzne : (1 + z) ≠ 0 := ne_of_gt (by linarith)
  have part1 : NeutrinoFlux.survivalP c.Eres c.Eres z h Om Ol Ok =
      Real.exp (-(0.678 / h * 0.03)) := by
    unfold NeutrinoFlux.survivalP
    rw [if_neg (by push_neg; exact ⟨hdiv.le, le_refl _⟩)]
    rw [div_self hEne,
      show Om * (1 : ℝ) ^ 3 + Ok * (1 : ℝ) ^ 2 + Ol = Om + Ol + Ok by ring,
      hflat, Real.sqrt_one]
    norm_num
  refine ⟨part1, ?_, ?_, ?_⟩
  · rw [part1, Ne, Real.exp_eq_one_iff]
    have hne : 0.678 / h * 0.03 ≠ 0 :=
      mul_ne_zero (div_ne_zero (by norm_num) (ne_of_gt hh)) (by norm_num)
    simpa using hne
  · unfold NeutrinoFlux.survivalP
    rw [if_neg (by push_neg; exact ⟨le_refl _, hdiv.le⟩)]
    have key : c.Eres / (c.Eres / (1 + z)) = 1 + z := by
      field_simp
    rw [key]
  · unfold NeutrinoFlux.survivalP
    rw [if_pos (Or.inr (by linarith))]

/-- Witness for the amended C4, with `Eres = 1`, `z = 1`, `h = 1` and the
flat triple `(1, 0, 0)`. -/
theorem survival_probability_boundary_witness :
    NeutrinoFlux.survivalP 1 1 1 1 1 0 0 = Real.exp (-(0.678 / 1 * 0.03)) ∧
    NeutrinoFlux.survivalP 1 1 1 1 1 0 0 ≠ 1 ∧
    NeutrinoFlux.survivalP 1 (1 / (1 + 1)) 1 1 1 0 0 =
      Real.exp (-(0.678 / 1 * 0.03 *
        (((1 : ℝ) + 1) ^ 3 /
          Real.sqrt (1 * ((1 : ℝ) + 1) ^ 3 + 0 * ((1 : ℝ) + 1) ^ 2 + 0)))) ∧
    NeutrinoFlux.survivalP 1 (2 * 1) 1 1 1 0 0 = 1 := by
  have h := survival_probability_boundary { m_n := NeutrinoFlux.m_z ^ 2 / 2 }
    1 1 1 0 0 (by norm_num) (by norm_num)
    (by rw [NeutrinoFlux.Eres_mk_eq_one]; norm_num) (by norm_num)
  rwa [NeutrinoFlux.Eres_mk_eq_one] at h

namespace NeutrinoFlux

/-- Unfolding of `Ebe04_neutrino_flux_earth_F` with absorption. -/
lemma flux_true (c : NeutrinoFlux) (e : ℝ) :
    c.Ebe04_neutrino_flux_earth_F e true =
      1 / (4 * Real.pi) *
        (∫ z in c.z_min..c.z_max,
          1 / Hubble z 0.678 0.308 0.692 0 *
            survivalP c.Eres e z 0.678 0.308 0.692 0 *
            c.Ebe04_source_emissivity_L_z z) *
        (1 / 3) * c.Ebe04_source_emissivity_L_no_z e := rfl

/-- Unfolding of `Ebe04_neutrino_flux_earth_F` without absorption. -/
lemma flux_false (c : NeutrinoFlux) (e : ℝ) :
    c.Ebe04_neutrino_flux_earth_F e false =
      1 / (4 * Real.pi) *
        (∫ z in c.z_min..c.z_max,
          1 / Hubble z 0.678 0.308 0.692 0 *
            c.Ebe04_source_emissivity_L_z z) *
        (1 / 3) * c.Ebe04_source_emissivity_L_no_z e := rfl

/-- A measurable real function bounded on `(a, b]` is interval
integrable there. -/
lemma intervalIntegrable_of_bdd {f : ℝ → ℝ} {a b M : ℝ} (hab : a ≤ b)
    (hf : Measurable f) (hM : ∀ z, a < z → z ≤ b → ‖f z‖ ≤ M) :
    IntervalIntegrable f volume a b := by
  rw [intervalIntegrable_iff_integrableOn_Ioc_of_le hab]
  apply Measure.integrableOn_of_bounded
  · simp [Real.volume_Ioc]
  · exact hf.aestronglyMeasurable
  · filter_upwards [self_mem_ae_restrict measurableSet_Ioc] with z hz
    exact hM z hz.1 hz.2

/-- The reciprocal Hubble factor is measurable in `z`. -/
lemma measurable_one_div_Hubble (h Om Ol Ok : ℝ) :
    Measurable fun z : ℝ => 1 / Hubble z h Om Ol Ok := by
  unfold Hubble
  have hb : Measurable fun z : ℝ => 1 + z := measurable_const.add measurable_id
  exact measurable_const.div
    ((measurable_const.mul
      ((((hb.pow_const 3).const_mul Om).add
        ((hb.pow_const 2).const_mul Ok)).add measurable_const)).sqrt)

/-- The z-dependent emissivity factor is measurable. -/
lemma measurable_L_z (c : NeutrinoFlux) :
    Measurable fun z => c.Ebe04_source_emissivity_L_z z := by
  unfold Ebe04_source_emissivity_L_z
  refine Measurable.ite (measurableSet_lt measurable_const measurable_id)
    ?_ measurable_const
  exact Measurable.ite (measurableSet_lt measurable_id measurable_const)
    ((measurable_const.add measurable_id).pow measurable_const) measurable_const

/-- The survival probability is measurable in `z` (its interior value does
not depend on `z`; only the window condition does). -/
lemma measurable_survivalP (Eres e h Om Ol Ok : ℝ) :
    Measurable fun z => survivalP Eres e z h Om Ol Ok := by
  unfold survivalP
  refine Measurable.ite ?_ measurable_const measurable_const
  rw [Set.setOf_or]
  refine MeasurableSet.union
    (measurableSet_lt measurable_const
      (measurable_const.div (measurable_const.add measurable_id))) ?_
  by_cases hc : Eres < e
  · simp [hc]
  · simp [hc]

/-- At the default parameters the Hubble factor is at least `67.8` for
every nonnegative redshift. -/
lemma Hubble_default_ge {z : ℝ} (hz : 0 ≤ z) :
    67.8 ≤ Hubble z 0.678 0.308 0.692 0 := by
  unfold Hubble
  rw [show (67.8 : ℝ) = Real.sqrt (67.8 ^ 2) from (Real.sqrt_sq (by norm_num)).symm]
  apply Real.sqrt_le_sqrt
  nlinarith [sq_nonneg z, mul_nonneg hz (sq_nonneg z),
    mul_nonneg (mul_nonneg hz hz) hz]

/-- The reciprocal Hubble factor is nonnegative. -/
lemma one_div_Hubble_nonneg (z h Om Ol Ok : ℝ) :
    0 ≤ 1 / Hubble z h Om Ol Ok :=
  one_div_nonneg.mpr (Hubble_nonneg z h Om Ol Ok)

/-- At the default parameters the reciprocal Hubble factor is at most `1`
for every nonnegative redshift. -/
lemma one_div_Hubble_le_one {z : ℝ} (hz : 0 ≤ z) :
    1 / Hubble z 0.678 0.308 0.692 0 ≤ 1 := by
  have h67 := Hubble_default_ge hz
  rw [div_le_one (by linarith)]
  linarith

end NeutrinoFlux

/-- C5: with the constructed configuration, for every energy inside the
resonance window of some redshift in `[z_min, z_max]`, the primary flux
without absorption is at least the primary flux with absorption: the
survival factor lies in `(0, 1]` and every other integrand factor is
nonnegative, so absorption only removes flux. -/
theorem flux_absorption_le (e : ℝ)
    (hwin : ∃ z, NeutrinoFlux.init.z_min ≤ z ∧ z ≤ NeutrinoFlux.init.z_max ∧
      NeutrinoFlux.init.Eres / (1 + z) ≤ e ∧ e ≤ NeutrinoFlux.init.Eres) :
    NeutrinoFlux.init.Ebe04_neutrino_flux_earth_F e false ≥
      NeutrinoFlux.init.Ebe04_neutrino_flux_earth_F e true := by
  obtain ⟨w, hwa, hwb, hlo, hhi⟩ := hwin
  have hw0 : (0 : ℝ) ≤ w := hwa
  have h1w : (0 : ℝ) < 1 + w := by linarith
  have he : 0 < e := lt_of_lt_of_le (div_pos NeutrinoFlux.Eres_init_pos h1w) hlo
  rw [ge_iff_le, NeutrinoFlux.flux_true, NeutrinoFlux.flux_false]
  have hb01 : NeutrinoFlux.init.z_min ≤ NeutrinoFlux.init.z_max := by
    norm_num [NeutrinoFlux.init]
  have hmf : Measurable fun z : ℝ =>
      1 / NeutrinoFlux.Hubble z 0.678 0.308 0.692 0 *
        NeutrinoFlux.init.Ebe04_source_emissivity_L_z z :=
    (NeutrinoFlux.measurable_one_div_Hubble 0.678 0.308 0.692 0).mul
      (NeutrinoFlux.measurable_L_z NeutrinoFlux.init)
  have hmt : Measurable fun z : ℝ =>
      1 / NeutrinoFlux.Hubble z 0.678 0.308 0.692 0 *
        NeutrinoFlux.survivalP NeutrinoFlux.init.Eres e z 0.678 0.308 0.692 0 *
        NeutrinoFlux.init.Ebe04_source_emissivity_L_z z :=
    ((NeutrinoFlux.measurable_one_div_Hubble 0.678 0.308 0.692 0).mul
      (NeutrinoFlux.measurable_survivalP NeutrinoFlux.init.Eres e 0.678 0.308 0.692 0)).mul
      (NeutrinoFlux.measurable_L_z NeutrinoFlux.init)
  have hbdf : ∀ z : ℝ, NeutrinoFlux.init.z_min < z →
      z ≤ NeutrinoFlux.init.z_max →
      ‖1 / NeutrinoFlux.Hubble z 0.678 0.308 0.692 0 *
        NeutrinoFlux.init.Ebe04_source_emissivity_L_z z‖ ≤ 1 := by
    intro z hza hzb
    have hz0 : (0 : ℝ) ≤ z := le_of_lt hza
    have hHn := NeutrinoFlux.one_div_Hubble_nonneg z 0.678 0.308 0.692 0
    have hH1 := NeutrinoFlux.one_div_Hubble_le_one hz0
    have hLn := NeutrinoFlux.L_z_nonneg NeutrinoFlux.init (le_refl 0) z
    have hL1 := NeutrinoFlux.L_z_init_le_one z
    rw [Real.norm_eq_abs, abs_of_nonneg (mul_nonneg hHn hLn)]
    exact mul_le_one₀ hH1 hLn hL1
  have hbdt : ∀ z : ℝ, NeutrinoFlux.init.z_min < z →
      z ≤ NeutrinoFlux.init.z_max →
      ‖1 / NeutrinoFlux.Hubble z 0.678 0.308 0.692 0 *
        NeutrinoFlux.survivalP NeutrinoFlux.init.Eres e z 0.678 0.308 0.692 0 *
        NeutrinoFlux.init.Ebe04_source_emissivity_L_z z‖ ≤ 1 := by
    intro z hza hzb
    have hz0 : (0 : ℝ) ≤ z := le_of_lt hza
    have hHn := NeutrinoFlux.one_div_Hubble_nonneg z 0.678 0.308 0.692 0
    have hH1 := NeutrinoFlux.one_div_Hubble_le_one hz0
    have hLn := NeutrinoFlux.L_z_nonneg NeutrinoFlux.init (le_refl 0) z
    have hL1 := NeutrinoFlux.L_z_init_le_one z
    have hP := NeutrinoFlux.survivalP_pos NeutrinoFlux.init.Eres e z 0.678 0.308 0.692 0
    have hP1 := NeutrinoFlux.survivalP_le_one NeutrinoFlux.init.Eres e z 0.678 0.308 0.692 0
      he (by norm_num)
    rw [Real.norm_eq_abs, abs_of_nonneg (mul_nonneg (mul_nonneg hHn hP.le) hLn)]
    exact mul_le_one₀ (mul_le_one₀ hH1 hP.le hP1) hLn hL1
  have hIf := NeutrinoFlux.intervalIntegrable_of_bdd hb01 hmf hbdf
  have hIt := NeutrinoFlux.intervalIntegrable_of_bdd hb01 hmt hbdt
  have hpt : ∀ x ∈ Icc NeutrinoFlux.init.z_min NeutrinoFlux.init.z_max,
      1 / NeutrinoFlux.Hubble x 0.678 0.308 0.692 0 *
        NeutrinoFlux.survivalP NeutrinoFlux.init.Eres e x 0.678 0.308 0.692 0 *
        NeutrinoFlux.init.Ebe04_source_emissivity_L_z x ≤
      1 / NeutrinoFlux.Hubble x 0.678 0.308 0.692 0 *
        NeutrinoFlux.init.Ebe04_source_emissivity_L_z x := by
    intro x hx
    have hHn := NeutrinoFlux.one_div_Hubble_nonneg x 0.678 0.308 0.692 0
    have hLn := NeutrinoFlux.L_z_nonneg NeutrinoFlux.init (le_refl 0) x
    have hP1 := NeutrinoFlux.survivalP_le_one NeutrinoFlux.init.Eres e x 0.678 0.308 0.692 0
      he (by norm_num)
    calc 1 / NeutrinoFlux.Hubble x 0.678 0.308 0.692 0 *
        NeutrinoFlux.survivalP NeutrinoFlux.init.Eres e x 0.678 0.308 0.692 0 *
        NeutrinoFlux.init.Ebe04_source_emissivity_L_z x ≤
        1 / NeutrinoFlux.Hubble x 0.678 0.308 0.692 0 * 1 *
          NeutrinoFlux.init.Ebe04_source_emissivity_L_z x :=
      mul_le_mul_of_nonneg_right (mul_le_mul_of_nonneg_left hP1 hHn) hLn
    _ = 1 / NeutrinoFlux.Hubble x 0.678 0.308 0.692 0 *
        NeutrinoFlux.init.Ebe04_source_emissivity_L_z x := by ring
  have hI := intervalIntegral.integral_mono_on hb01 hIt hIf hpt
  have hLno : 0 ≤ NeutrinoFlux.init.Ebe04_source_emissivity_L_no_z e := by
    show 0 ≤ (1e-5 : ℝ) * 3e6 * e ^ (-(1 : ℝ))
    exact mul_nonneg (by norm_num) (Real.rpow_nonneg he.le _)
  exact mul_le_mul_of_nonneg_right
    (mul_le_mul_of_nonneg_right
      (mul_le_mul_of_nonneg_left hI (by positivity))
      (by norm_num : (0 : ℝ) ≤ 1 / 3))
    hLno

/-- Witness for C5: `e = Eres` is in the window at redshift `0`. -/
theorem flux_absorption_le_witness :
    NeutrinoFlux.init.Ebe04_neutrino_flux_earth_F NeutrinoFlux.init.Eres false ≥
      NeutrinoFlux.init.Ebe04_neutrino_flux_earth_F NeutrinoFlux.init.Eres true :=
  flux_absorption_le NeutrinoFlux.init.Eres
    ⟨0, by norm_num [NeutrinoFlux.init], by norm_num [NeutrinoFlux.init],
      by simp, le_refl _⟩
